import Mathlib

/-
Verification of the AdventureWorks ETL pipeline
(airflow/dags/dw_adventureworks_pipeline.py) against its design
specification.  Python/SQL is shallowly embedded: database tables are
lists of rows, SQL NUMERIC values are exact rationals, Python values
carry a constructor per runtime class relevant to the pipeline.
-/

namespace DWPipeline

/-- Embedding of the Python runtime values the pipeline samples.
`none` is Python None; `date` is a `datetime.date` that is NOT a
`datetime.datetime`; `datetime` is a `datetime.datetime`.  Floats only
matter for classification, so they carry no payload. -/
inductive PyVal where
  | none
  | bool (b : Bool)
  | int (n : Int)
  | float
  | decimal (q : ℚ)
  | datetime (t : Nat)
  | date (d : Nat)
  | text (s : String)
deriving DecidableEq

/-- The PostgreSQL storage types that `inferir_tipo_coluna` can return. -/
inductive TipoSQL where
  | BOOLEAN
  | INTEGER
  | DOUBLE_PRECISION
  | NUMERIC_18_4
  | TIMESTAMP
  | TEXT
deriving DecidableEq, Repr

/-- Classification of a single sampled value, one branch per
`isinstance` test in `inferir_tipo_coluna` (lines 86-100).  `Option.none`
models the `continue` on a Python None.  The timestamp branch is
`isinstance(valor, (datetime, datetime))`: the tuple names `datetime`
twice and never `date`, so a plain `date` falls through to the `else`
branch and classifies as TEXT. -/
def classificar : PyVal → Option TipoSQL
  | .none => Option.none
  | .bool _ => some .BOOLEAN
  | .int _ => some .INTEGER
  | .float => some .DOUBLE_PRECISION
  | .decimal _ => some .NUMERIC_18_4
  | .datetime _ => some .TIMESTAMP
  | .date _ => some .TEXT
  | .text _ => some .TEXT

/-- The Python set `tipos_encontrados`, represented as the duplicate-free
list of classifications in first-seen order. -/
def coletarTipos (amostras : List PyVal) : List TipoSQL :=
  amostras.foldl
    (fun acc v =>
      match classificar v with
      | Option.none => acc
      | some t => if t ∈ acc then acc else acc ++ [t])
    []

/-- `inferir_tipo_coluna` (lines 82-110): empty set of classifications
gives TEXT, a singleton gives its element, a subset of
{INTEGER, NUMERIC(18,4)} gives NUMERIC(18,4), anything else gives TEXT. -/
def inferir_tipo_coluna (amostras : List PyVal) : TipoSQL :=
  match coletarTipos amostras with
  | [] => .TEXT
  | [t] => t
  | tipos =>
    if tipos.all (fun t => t = .INTEGER ∨ t = .NUMERIC_18_4) then .NUMERIC_18_4
    else .TEXT

section TiposLemas

lemma coletarTipos_go_nodup (amostras : List PyVal) (acc : List TipoSQL)
    (hacc : acc.Nodup) :
    (amostras.foldl
      (fun acc v =>
        match classificar v with
        | Option.none => acc
        | some t => if t ∈ acc then acc else acc ++ [t])
      acc).Nodup := by
  induction amostras generalizing acc with
  | nil => simpa using hacc
  | cons v vs ih =>
    simp only [List.foldl_cons]
    apply ih
    cases h : classificar v with
    | none => simpa using hacc
    | some t =>
      simp only
      by_cases ht : t ∈ acc
      · simpa [ht] using hacc
      · simp [ht, List.nodup_append, hacc]

lemma coletarTipos_nodup (amostras : List PyVal) : (coletarTipos amostras).Nodup :=
  coletarTipos_go_nodup amostras [] List.nodup_nil

end TiposLemas

/-- C1: the type inferencer implements the promotion table of the spec:
an empty classification set yields TEXT, a singleton yields its unique
element, exactly {INTEGER, NUMERIC(18,4)} yields NUMERIC(18,4), any
other mixture of two or more classifications yields TEXT, and inference
is deterministic on a fixed sample. -/
theorem C1_promocao_tipos (S : List PyVal) :
    (coletarTipos S = [] → inferir_tipo_coluna S = TipoSQL.TEXT) ∧
    (∀ t, coletarTipos S = [t] → inferir_tipo_coluna S = t) ∧
    ((coletarTipos S).toFinset = {TipoSQL.INTEGER, TipoSQL.NUMERIC_18_4} →
      inferir_tipo_coluna S = TipoSQL.NUMERIC_18_4) ∧
    (2 ≤ (coletarTipos S).toFinset.card →
      (coletarTipos S).toFinset ≠ {TipoSQL.INTEGER, TipoSQL.NUMERIC_18_4} →
      inferir_tipo_coluna S = TipoSQL.TEXT) ∧
    inferir_tipo_coluna S = inferir_tipo_coluna S := by
  refine ⟨?_, ?_, ?_, ?_, rfl⟩
  · intro h
    simp [inferir_tipo_coluna, h]
  · intro t h
    simp [inferir_tipo_coluna, h]
  · intro h
    have hnd := coletarTipos_nodup S
    have hcard2 : (coletarTipos S).toFinset.card = 2 := by
      rw [h]
      decide
    have hlen : (coletarTipos S).length = 2 := by
      rw [List.toFinset_card_of_nodup hnd] at hcard2
      exact hcard2
    have hmem : ∀ t ∈ coletarTipos S, t = TipoSQL.INTEGER ∨ t = TipoSQL.NUMERIC_18_4 := by
      intro t ht
      have hin : t ∈ (coletarTipos S).toFinset := List.mem_toFinset.mpr ht
      rw [h] at hin
      simpa using hin
    rcases hS : coletarTipos S with _ | ⟨t1, rest1⟩
    · rw [hS] at hlen
      simp at hlen
    rcases rest1 with _ | ⟨t2, rest⟩
    · rw [hS] at hlen
      simp at hlen
    rw [hS] at hmem
    have hall : ((t1 :: t2 :: rest).all
        fun t => decide (t = TipoSQL.INTEGER ∨ t = TipoSQL.NUMERIC_18_4)) = true := by
      rw [List.all_eq_true]
      intro x hx
      exact decide_eq_true (hmem x hx)
    unfold inferir_tipo_coluna
    rw [hS]
    simp only [hall]
    simp
  · intro hcard hne
    have hnd := coletarTipos_nodup S
    have hlen : 2 ≤ (coletarTipos S).length := by
      rw [List.toFinset_card_of_nodup hnd] at hcard
      exact hcard
    rcases hS : coletarTipos S with _ | ⟨t1, rest1⟩
    · rw [hS] at hlen
      simp at hlen
    rcases rest1 with _ | ⟨t2, rest⟩
    · rw [hS] at hlen
      simp at hlen
    rw [hS] at hne
    have hall : ((t1 :: t2 :: rest).all
        fun t => decide (t = TipoSQL.INTEGER ∨ t = TipoSQL.NUMERIC_18_4)) = false := by
      by_contra hcon
      have hall2 : ∀ x ∈ t1 :: t2 :: rest, x = TipoSQL.INTEGER ∨ x = TipoSQL.NUMERIC_18_4 := by
        intro x hx
        have hd := List.all_eq_true.mp (eq_true_of_ne_false hcon) x hx
        exact of_decide_eq_true hd
      have hsub : (t1 :: t2 :: rest).toFinset ⊆ {TipoSQL.INTEGER, TipoSQL.NUMERIC_18_4} := by
        intro x hx
        have hx2 := List.mem_toFinset.mp hx
        rcases hall2 x hx2 with h | h <;> simp [h]
      have hsetlen : 2 ≤ (t1 :: t2 :: rest).toFinset.card := by
        rw [hS] at hcard
        exact hcard
      have hpaircard : ({TipoSQL.INTEGER, TipoSQL.NUMERIC_18_4} : Finset TipoSQL).card ≤
          (t1 :: t2 :: rest).toFinset.card := by
        have hp : ({TipoSQL.INTEGER, TipoSQL.NUMERIC_18_4} : Finset TipoSQL).card = 2 := by
          decide
        omega
      exact hne (Finset.eq_of_subset_of_card_le hsub hpaircard)
    unfold inferir_tipo_coluna
    rw [hS]
    simp only [hall]
    simp

/-- C1 witness: a sample holding one Python int and one Decimal is
promoted to NUMERIC(18,4). -/
theorem C1_promocao_tipos_testemunha :
    inferir_tipo_coluna [PyVal.int 7, PyVal.decimal 1] = TipoSQL.NUMERIC_18_4 :=
  (C1_promocao_tipos [PyVal.int 7, PyVal.decimal 1]).2.2.1 (by decide)

/-- C8: a sampled calendar date that is not a datetime classifies as
TEXT and never as TIMESTAMP, while a datetime classifies as TIMESTAMP;
in particular a column sampled as a single plain date is inferred TEXT. -/
theorem C8_data_sem_ramo_timestamp :
    (∀ d : Nat, classificar (PyVal.date d) = some TipoSQL.TEXT) ∧
    (∀ d : Nat, classificar (PyVal.date d) ≠ some TipoSQL.TIMESTAMP) ∧
    (∀ t : Nat, classificar (PyVal.datetime t) = some TipoSQL.TIMESTAMP) ∧
    (∀ d : Nat, inferir_tipo_coluna [PyVal.date d] = TipoSQL.TEXT) := by
  refine ⟨fun d => rfl, fun d => by simp [classificar], fun t => rfl, fun d => rfl⟩

/-- The static source-to-staging table mapping `MAPA_TABELAS` (lines 57-69). -/
def MAPA_TABELAS : List (String × String) :=
  [ ("Sales.Customer", "stage_clientes"),
    ("Person.Person", "stage_pessoas"),
    ("Production.Product", "stage_produtos"),
    ("Production.ProductSubcategory", "stage_subcategorias"),
    ("Production.ProductCategory", "stage_categorias"),
    ("Sales.SalesTerritory", "stage_territorios"),
    ("Sales.SalesPerson", "stage_vendedores"),
    ("HumanResources.Employee", "stage_funcionarios"),
    ("Sales.SpecialOffer", "stage_ofertas"),
    ("Sales.SalesOrderHeader", "stage_pedidos_header"),
    ("Sales.SalesOrderDetail", "stage_pedidos_detalhe") ]

/-- A source table as fetched by `cursor_mssql.fetchall()`: ordered column
names plus all extracted rows.  Rows are assumed rectangular; an
out-of-range column read is modelled as a null. -/
structure TabelaFonte where
  colunas : List String
  registros : List (List PyVal)
deriving DecidableEq

/-- A staging table: the typed column schema of `CREATE TABLE` and the
loaded rows. -/
structure TabelaStaging where
  schema : List (String × TipoSQL)
  linhas : List (List PyVal)
deriving DecidableEq

/-- The Python test `r[idx] is not None`. -/
def isNotNull : PyVal → Bool
  | .none => false
  | _ => true

/-- The per-column sample of line 200 and 204:
`amostra = registros[:min(len(registros), 1000)]` followed by
`[r[idx] for r in amostra if r[idx] is not None]`. -/
def valoresAmostra (fonte : TabelaFonte) (idx : Nat) : List PyVal :=
  ((fonte.registros.take (min fonte.registros.length 1000)).map
    (fun r => r.getD idx PyVal.none)).filter isNotNull

/-- The one-column placeholder table of line 195:
`CREATE TABLE staging.x (placeholder INT)`. -/
def tabelaPlaceholder : TabelaStaging :=
  ⟨[("placeholder", TipoSQL.INTEGER)], []⟩

/-- `tamanho_lote = 500` (line 216). -/
def tamanho_lote : Nat := 500

/-- The batch slicing of line 219-220:
`for i in range(0, len(registros), tamanho_lote): lote = registros[i:i+tamanho_lote]`. -/
def particionar {α : Type} : List α → List (List α)
  | [] => []
  | x :: xs => (x :: xs).take tamanho_lote :: particionar ((x :: xs).drop tamanho_lote)
termination_by l => l.length
decreasing_by
  simp [tamanho_lote, List.length_drop]
  omega

/-- One iteration of the staging loop for one mapping (lines 192-229):
an empty extraction creates the placeholder; otherwise the schema is
inferred per column from the bounded sample and all extracted rows are
inserted batch by batch. -/
def processarTabela (fonte : TabelaFonte) : TabelaStaging :=
  if fonte.registros.isEmpty then tabelaPlaceholder
  else
    { schema := fonte.colunas.enum.map
        (fun p => (p.2, inferir_tipo_coluna (valoresAmostra fonte p.1)))
      linhas := (particionar fonte.registros).flatten }

/-- The whole staging stage: fold over the configured mappings, each one
dropping (overwriting) and recreating its staging table in the
destination state. -/
def extrairParaStaging (fontes : List (String × TabelaFonte))
    (estado : String → Option TabelaStaging) : String → Option TabelaStaging :=
  fontes.foldl
    (fun st p => fun nome => if nome = p.1 then some (processarTabela p.2) else st nome)
    estado

section StagingLemas

lemma particionar_flatten {α : Type} (l : List α) : (particionar l).flatten = l := by
  induction l using particionar.induct with
  | case1 => simp [particionar]
  | case2 x xs ih =>
    rw [particionar]
    simp only [List.flatten_cons, ih]
    exact List.take_append_drop _ _

lemma particionar_eq_nil {α : Type} (l : List α) : particionar l = [] ↔ l = [] := by
  cases l with
  | nil => simp [particionar]
  | cons x xs => simp [particionar]

lemma particionar_lotes {α : Type} (l : List α) :
    ∀ lote ∈ particionar l, lote.length ≤ tamanho_lote ∧ lote ≠ [] := by
  induction l using particionar.induct with
  | case1 => simp [particionar]
  | case2 x xs ih =>
    rw [particionar]
    intro lote hl
    rcases List.mem_cons.mp hl with rfl | hmem
    · constructor
      · rw [List.length_take]
        exact Nat.min_le_left _ _
      · have : tamanho_lote = 499 + 1 := by decide
        rw [this]
        simp [List.take_succ_cons]
    · exact ih lote hmem

lemma particionar_lotes_cheios {α : Type} (l : List α) :
    ∀ lote ∈ (particionar l).dropLast, lote.length = tamanho_lote := by
  induction l using particionar.induct with
  | case1 => simp [particionar]
  | case2 x xs ih =>
    rw [particionar]
    intro lote hl
    rcases hrest : particionar ((x :: xs).drop tamanho_lote) with _ | ⟨b, bs⟩
    · rw [hrest] at hl
      simp at hl
    · rw [hrest, List.dropLast_cons₂, List.mem_cons] at hl
      rcases hl with rfl | hmem
      · have hne : (x :: xs).drop tamanho_lote ≠ [] := by
          intro hc
          rw [hc] at hrest
          simp [particionar] at hrest
        have hlong : tamanho_lote ≤ (x :: xs).length := by
          by_contra hc
          push_neg at hc
          have : (x :: xs).drop tamanho_lote = [] := List.drop_eq_nil_of_le (le_of_lt hc)
          exact hne this
        rw [List.length_take]
        exact Nat.min_eq_left hlong
      · have := ih lote
        rw [hrest] at this
        exact this (by simpa using hmem)

lemma extrairParaStaging_nao_listado (fontes : List (String × TabelaFonte)) :
    ∀ (estado : String → Option TabelaStaging) (nome : String),
      nome ∉ fontes.map Prod.fst → extrairParaStaging fontes estado nome = estado nome := by
  induction fontes with
  | nil => intro estado nome _; rfl
  | cons q rest ih =>
    intro estado nome h
    simp only [List.map_cons, List.mem_cons] at h
    push_neg at h
    have hrec := ih (fun nome2 =>
      if nome2 = q.1 then some (processarTabela q.2) else estado nome2) nome h.2
    simp only [extrairParaStaging, List.foldl_cons] at hrec ⊢
    rw [hrec]
    simp [h.1]

lemma extrairParaStaging_lookup (fontes : List (String × TabelaFonte)) :
    ∀ (estado : String → Option TabelaStaging), (fontes.map Prod.fst).Nodup →
      ∀ p ∈ fontes, extrairParaStaging fontes estado p.1 = some (processarTabela p.2) := by
  induction fontes with
  | nil => intro estado _ p hp; simp at hp
  | cons q rest ih =>
    intro estado hnodup p hp
    simp only [List.map_cons, List.nodup_cons] at hnodup
    rcases List.mem_cons.mp hp with rfl | hmem
    · have hrec := extrairParaStaging_nao_listado rest
        (fun nome2 => if nome2 = p.1 then some (processarTabela p.2) else estado nome2)
        p.1 hnodup.1
      simp only [extrairParaStaging, List.foldl_cons] at hrec ⊢
      rw [hrec]
      simp
    · have hrec := ih (fun nome2 =>
        if nome2 = q.1 then some (processarTabela q.2) else estado nome2) hnodup.2 p hmem
      simp only [extrairParaStaging, List.foldl_cons] at hrec ⊢
      exact hrec

end StagingLemas

/-- C6: a mapping whose source yields zero rows replaces its staging
table by the one-column placeholder, every other configured mapping is
still processed (the run is not aborted), and the result does not depend
on what the staging namespace held before (drop and recreate). -/
theorem C6_fonte_vazia (fontes : List (String × TabelaFonte))
    (estado : String → Option TabelaStaging)
    (hnodup : (fontes.map Prod.fst).Nodup) :
    (∀ p ∈ fontes, extrairParaStaging fontes estado p.1 = some (processarTabela p.2)) ∧
    (∀ p ∈ fontes, p.2.registros = [] →
      extrairParaStaging fontes estado p.1 = some tabelaPlaceholder ∧
      tabelaPlaceholder.schema.length = 1) ∧
    (∀ p ∈ fontes, ∀ estado2,
      extrairParaStaging fontes estado p.1 = extrairParaStaging fontes estado2 p.1) := by
  refine ⟨extrairParaStaging_lookup fontes estado hnodup, ?_, ?_⟩
  · intro p hp hempty
    refine ⟨?_, rfl⟩
    rw [extrairParaStaging_lookup fontes estado hnodup p hp]
    simp [processarTabela, hempty]
  · intro p hp estado2
    rw [extrairParaStaging_lookup fontes estado hnodup p hp,
      extrairParaStaging_lookup fontes estado2 hnodup p hp]

/-- C6 witness: a two-mapping configuration whose second source is empty
still processes both mappings and gives the empty one the placeholder. -/
theorem C6_fonte_vazia_testemunha :
    extrairParaStaging
      [("a", ⟨["c"], [[PyVal.int 1]]⟩), ("b", ⟨["c"], []⟩)]
      (fun _ => Option.none) "b" = some tabelaPlaceholder :=
  ((C6_fonte_vazia
      [("a", ⟨["c"], [[PyVal.int 1]]⟩), ("b", ⟨["c"], []⟩)]
      (fun _ => Option.none) (by decide)).2.1
    ("b", ⟨["c"], []⟩) (by simp) rfl).1

/-- C7: for a non-empty source the staging table keeps exactly the
source column names in order, each column type is inferred from the
null-free sample of at most 1000 rows, and the batched insert loads all
extracted rows in batches of at most 500 (all full except possibly the
last), so the inserted row count equals the extracted row count. -/
theorem C7_staging_nao_vazia (fonte : TabelaFonte) (h : fonte.registros ≠ []) :
    (processarTabela fonte).schema.map Prod.fst = fonte.colunas ∧
    (processarTabela fonte).schema = fonte.colunas.enum.map
      (fun p => (p.2, inferir_tipo_coluna (valoresAmostra fonte p.1))) ∧
    (∀ idx, (valoresAmostra fonte idx).length ≤ 1000 ∧
      ∀ v ∈ valoresAmostra fonte idx, isNotNull v = true) ∧
    (processarTabela fonte).linhas = (particionar fonte.registros).flatten ∧
    (processarTabela fonte).linhas = fonte.registros ∧
    (processarTabela fonte).linhas.length = fonte.registros.length ∧
    (∀ lote ∈ particionar fonte.registros, lote.length ≤ tamanho_lote ∧ lote ≠ []) ∧
    (∀ lote ∈ (particionar fonte.registros).dropLast, lote.length = tamanho_lote) := by
  have hne : fonte.registros.isEmpty = false := by
    rw [List.isEmpty_eq_false]
    exact h
  refine ⟨?_, ?_, ?_, ?_, ?_, ?_, particionar_lotes _, particionar_lotes_cheios _⟩
  · simp [processarTabela, hne, List.map_map, Function.comp_def, List.enum_map_snd]
  · simp [processarTabela, hne]
  · intro idx
    constructor
    · have h1 := List.length_filter_le isNotNull
        ((fonte.registros.take (min fonte.registros.length 1000)).map
          (fun r => r.getD idx PyVal.none))
      have h2 : ((fonte.registros.take (min fonte.registros.length 1000)).map
          (fun r => r.getD idx PyVal.none)).length ≤ 1000 := by
        simp [List.length_take]
      calc (valoresAmostra fonte idx).length
          ≤ _ := h1
        _ ≤ 1000 := h2
    · intro v hv
      exact List.of_mem_filter hv
  · simp [processarTabela, hne]
  · simp [processarTabela, hne, particionar_flatten]
  · simp [processarTabela, hne, particionar_flatten]

/-- C7 witness: a two-column single-row source keeps its column names
and loads its one row. -/
theorem C7_staging_nao_vazia_testemunha :
    (processarTabela ⟨["a", "b"], [[PyVal.int 1, PyVal.text "x"]]⟩).schema.map Prod.fst
      = ["a", "b"] ∧
    (processarTabela ⟨["a", "b"], [[PyVal.int 1, PyVal.text "x"]]⟩).linhas.length = 1 :=
  ⟨(C7_staging_nao_vazia ⟨["a", "b"], [[PyVal.int 1, PyVal.text "x"]]⟩ (by simp)).1,
    (C7_staging_nao_vazia ⟨["a", "b"], [[PyVal.int 1, PyVal.text "x"]]⟩ (by simp)).2.2.2.2.2.1.trans
      (by simp)⟩

/-- A calendar date. -/
structure Data where
  ano : Nat
  mes : Nat
  dia : Nat
deriving DecidableEq

/-- Gregorian leap-year rule, as used by PostgreSQL date arithmetic. -/
def bissexto (a : Nat) : Bool :=
  decide (a % 4 = 0) && (decide (a % 100 ≠ 0) || decide (a % 400 = 0))

/-- Number of days of month `m` of year `a`. -/
def diasNoMes (a m : Nat) : Nat :=
  if m = 2 then (if bissexto a then 29 else 28)
  else if m = 4 ∨ m = 6 ∨ m = 9 ∨ m = 11 then 30
  else 31

/-- All days of month `m` of year `a`, in order. -/
def diasDoMes (a m : Nat) : List Data :=
  (List.range (diasNoMes a m)).map (fun d => ⟨a, m, d + 1⟩)

/-- All days of year `a`, in order. -/
def diasDoAno (a : Nat) : List Data :=
  (List.range 12).flatMap (fun m => diasDoMes a (m + 1))

/-- The row source of lines 153-157,
`generate_series('2008-01-01'::DATE, '2030-12-31'::DATE, INTERVAL '1 day')`:
one element per calendar day of the inclusive range, in chronological
order.  The range covers the whole years 2008 through 2030, so it is the
concatenation of those 23 calendar years. -/
def serieCalendario : List Data :=
  (List.range 23).flatMap (fun i => diasDoAno (2008 + i))

/-- Length of a calendar year. -/
def diasNoAno (a : Nat) : Nat :=
  if bissexto a then 366 else 365

/-- The exact number of calendar days in the inclusive range
2008-01-01 through 2030-12-31. -/
def numeroDiasIntervalo : Nat :=
  ((List.range 23).map (fun i => diasNoAno (2008 + i))).sum

/-- One row of `dw.dim_tempo` as built by the seeding SELECT
(lines 140-152), restricted to the columns the claims mention plus the
purely arithmetic ones.  The ISO week number and the locale-dependent
month and weekday names are not modelled. -/
structure LinhaTempo where
  sk_tempo : Nat
  data_completa : Data
  ano : Nat
  trimestre : Nat
  mes : Nat
  dia : Nat
  eh_feriado : Bool
deriving DecidableEq

/-- The per-day row constructor: `TO_CHAR(d, 'YYYYMMDD')::INT` for the
surrogate key, calendar fields extracted from the date, and
`FALSE AS eh_feriado`. -/
def linhaTempoDe (d : Data) : LinhaTempo :=
  { sk_tempo := d.ano * 10000 + d.mes * 100 + d.dia
    data_completa := d
    ano := d.ano
    trimestre := (d.mes - 1) / 3 + 1
    mes := d.mes
    dia := d.dia
    eh_feriado := false }

/-- `inicializar_dimensao_tempo` (lines 116-164): if the dimension
already has rows, return unchanged; otherwise insert one row per day of
the fixed range. -/
def inicializar_dimensao_tempo (dim_tempo : List LinhaTempo) : List LinhaTempo :=
  if 0 < dim_tempo.length then dim_tempo
  else dim_tempo ++ serieCalendario.map linhaTempoDe

section CalendarioLemas

lemma diasDoAno_length (a : Nat) : (diasDoAno a).length = diasNoAno a := by
  cases h : bissexto a <;>
    simp [diasDoAno, diasDoMes, diasNoMes, diasNoAno, h, List.length_flatMap,
      Function.comp_def] <;> decide

lemma serieCalendario_length : serieCalendario.length = numeroDiasIntervalo := by
  simp [serieCalendario, numeroDiasIntervalo, List.length_flatMap, Function.comp_def,
    diasDoAno_length]

lemma numeroDiasIntervalo_valor : numeroDiasIntervalo = 8401 := by decide

end CalendarioLemas

/-- C5: on an empty date dimension the seeder inserts one row per
calendar day of 2008-01-01..2030-12-31 (8401 rows, the exact day count
of the range), every row has a false holiday flag and the YYYYMMDD
integer of its date as surrogate key; on a non-empty dimension nothing
is inserted. -/
theorem C5_semente_calendario (dim_tempo : List LinhaTempo) :
    (dim_tempo ≠ [] → inicializar_dimensao_tempo dim_tempo = dim_tempo) ∧
    (dim_tempo = [] →
      (inicializar_dimensao_tempo dim_tempo).length = numeroDiasIntervalo ∧
      numeroDiasIntervalo = 8401 ∧
      ∀ r ∈ inicializar_dimensao_tempo dim_tempo,
        r.eh_feriado = false ∧
        r.sk_tempo =
          r.data_completa.ano * 10000 + r.data_completa.mes * 100 + r.data_completa.dia) := by
  constructor
  · intro h
    simp [inicializar_dimensao_tempo, List.length_pos.mpr h]
  · intro h
    subst h
    refine ⟨?_, numeroDiasIntervalo_valor, ?_⟩
    · simp [inicializar_dimensao_tempo, serieCalendario_length]
    · intro r hr
      simp only [inicializar_dimensao_tempo, List.length_nil, lt_irrefl, if_false,
        List.nil_append, List.mem_map] at hr
      obtain ⟨d, _, rfl⟩ := hr
      exact ⟨rfl, rfl⟩

/-- C5 witness: seeding the empty dimension produces 8401 rows, and
re-seeding a dimension holding one row changes nothing. -/
theorem C5_semente_calendario_testemunha :
    (inicializar_dimensao_tempo []).length = numeroDiasIntervalo ∧
    inicializar_dimensao_tempo [linhaTempoDe ⟨2008, 1, 1⟩] = [linhaTempoDe ⟨2008, 1, 1⟩] :=
  ⟨((C5_semente_calendario []).2 rfl).1,
    (C5_semente_calendario [linhaTempoDe ⟨2008, 1, 1⟩]).1 (by simp)⟩

/-- The derived metric columns of one fact row (lines 463-497).
SQL NUMERIC fixed-point values are modelled as exact rationals. -/
structure MetricasFato where
  quantidade_vendida : Int
  valor_unitario : ℚ
  valor_bruto : ℚ
  valor_desconto : ℚ
  valor_liquido : ℚ
  custo_total : ℚ
  lucro_bruto : ℚ
  percentual_desconto : ℚ
  margem_contribuicao : ℚ
deriving DecidableEq

/-- The metric expressions of the fact SELECT, one per output column,
with the two COALESCE defaults: a missing `UnitPriceDiscount` counts as
0 and a missing product-dimension match makes `custo_unitario` 0. -/
def calcularMetricas (valorUnitario : ℚ) (quantidade : Int)
    (descontoUnitario : Option ℚ) (custoUnitario : Option ℚ) : MetricasFato :=
  let q : ℚ := quantidade
  let d : ℚ := descontoUnitario.getD 0
  let c : ℚ := custoUnitario.getD 0
  { quantidade_vendida := quantidade
    valor_unitario := valorUnitario
    valor_bruto := valorUnitario * q
    valor_desconto := valorUnitario * q * d
    valor_liquido := valorUnitario * q * (1 - d)
    custo_total := c * q
    lucro_bruto := valorUnitario * q * (1 - d) - c * q
    percentual_desconto := d * 100
    margem_contribuicao :=
      if 0 < valorUnitario * q * (1 - d) then
        (valorUnitario * q * (1 - d) - c * q) / (valorUnitario * q * (1 - d)) * 100
      else 0 }

/-- C2: the derived metrics equal the fixed formulas of the spec —
gross = price times quantity, discount value = gross times fraction,
net = gross times one minus fraction, total cost = unit cost times
quantity with unresolved product costed 0, profit = net minus cost,
discount percentage = fraction times 100, and contribution margin =
profit over net times 100 guarded to 0 for non-positive net; for price
100, quantity 2, fraction 0.1 this gives gross 200, discount 20,
net 180. -/
theorem C2_formulas_metricas (p : ℚ) (q : Int) (desc cust : Option ℚ) :
    ((calcularMetricas p q desc cust).valor_bruto = p * q ∧
      (calcularMetricas p q desc cust).valor_desconto =
        (calcularMetricas p q desc cust).valor_bruto * desc.getD 0 ∧
      (calcularMetricas p q desc cust).valor_liquido =
        (calcularMetricas p q desc cust).valor_bruto * (1 - desc.getD 0) ∧
      (calcularMetricas p q desc cust).custo_total = cust.getD 0 * q ∧
      (calcularMetricas p q desc cust).lucro_bruto =
        (calcularMetricas p q desc cust).valor_liquido -
          (calcularMetricas p q desc cust).custo_total ∧
      (calcularMetricas p q desc cust).percentual_desconto = desc.getD 0 * 100) ∧
    (0 < (calcularMetricas p q desc cust).valor_liquido →
      (calcularMetricas p q desc cust).margem_contribuicao =
        (calcularMetricas p q desc cust).lucro_bruto /
          (calcularMetricas p q desc cust).valor_liquido * 100) ∧
    (¬ 0 < (calcularMetricas p q desc cust).valor_liquido →
      (calcularMetricas p q desc cust).margem_contribuicao = 0) ∧
    ((calcularMetricas 100 2 (some (1 / 10)) Option.none).valor_bruto = 200 ∧
      (calcularMetricas 100 2 (some (1 / 10)) Option.none).valor_desconto = 20 ∧
      (calcularMetricas 100 2 (some (1 / 10)) Option.none).valor_liquido = 180) := by
  refine ⟨⟨rfl, ?_, ?_, rfl, rfl, rfl⟩, ?_, ?_, by norm_num [calcularMetricas]⟩
  · simp only [calcularMetricas]
  · simp only [calcularMetricas]
  · intro h
    simp only [calcularMetricas] at h ⊢
    rw [if_pos h]
  · intro h
    simp only [calcularMetricas] at h ⊢
    rw [if_neg h]

/-- C2 witness: the margin formula instantiated at price 100,
quantity 2, discount 0.1, unresolved product cost. -/
theorem C2_formulas_metricas_testemunha :
    (calcularMetricas 100 2 (some (1 / 10)) Option.none).margem_contribuicao =
      (calcularMetricas 100 2 (some (1 / 10)) Option.none).lucro_bruto /
        (calcularMetricas 100 2 (some (1 / 10)) Option.none).valor_liquido * 100 :=
  (C2_formulas_metricas 100 2 (some (1 / 10)) Option.none).2.1
    (by norm_num [calcularMetricas])

/-- One staged `Sales.SalesOrderDetail` row with the columns the fact
SELECT reads.  Key columns are nullable. -/
structure PedidoDetalhe where
  salesOrderID : Option Int
  salesOrderDetailID : Option Int
  orderQty : Int
  unitPrice : ℚ
  unitPriceDiscount : Option ℚ
  productID : Option Int
  specialOfferID : Option Int
deriving DecidableEq

/-- One staged `Sales.SalesOrderHeader` row with the columns the fact
SELECT reads. -/
structure PedidoHeader where
  salesOrderID : Option Int
  orderDate : Data
  customerID : Option Int
  territoryID : Option Int
  salesPersonID : Option Int
deriving DecidableEq

/-- A dimension row as seen by the fact loader lookup joins: surrogate
key and natural key. -/
structure DimSimples where
  sk : Int
  nk : Int
deriving DecidableEq

/-- A product-dimension row as seen by the fact loader: it also carries
the unit cost used for the cost metrics. -/
structure DimProduto where
  sk_produto : Int
  nk_produto : Int
  custo_unitario : ℚ
deriving DecidableEq

/-- SQL left-join lookup of a surrogate key by natural key: a NULL
natural key matches nothing, a missing match gives NULL. -/
def procurarSk (dim : List DimSimples) (nk : Option Int) : Option Int :=
  match nk with
  | Option.none => Option.none
  | some v => (dim.find? (fun r => r.nk == v)).map (fun r => r.sk)

/-- Left-join lookup into the product dimension. -/
def procurarProduto (dim : List DimProduto) (nk : Option Int) : Option DimProduto :=
  match nk with
  | Option.none => Option.none
  | some v => dim.find? (fun r => r.nk_produto == v)

/-- One row of `dw.fato_vendas`. -/
structure FatoVendas where
  sk_tempo : Nat
  sk_cliente : Option Int
  sk_produto : Option Int
  sk_regiao : Option Int
  sk_vendedor : Option Int
  sk_oferta : Option Int
  numero_pedido : Int
  numero_linha : Int
  metricas : MetricasFato
deriving DecidableEq

/-- The SELECT list of the fact insert (lines 450-511) for one joined
detail and header pair: computed time key, left-joined surrogate keys,
business keys and derived metrics. -/
def construirFato (sod : PedidoDetalhe) (soh : PedidoHeader)
    (dimCliente : List DimSimples) (dimProduto : List DimProduto)
    (dimRegiao dimVendedor dimOferta : List DimSimples) : FatoVendas :=
  let dp := procurarProduto dimProduto sod.productID
  { sk_tempo := soh.orderDate.ano * 10000 + soh.orderDate.mes * 100 + soh.orderDate.dia
    sk_cliente := procurarSk dimCliente soh.customerID
    sk_produto := dp.map (fun r => r.sk_produto)
    sk_regiao := procurarSk dimRegiao soh.territoryID
    sk_vendedor := procurarSk dimVendedor soh.salesPersonID
    sk_oferta := procurarSk dimOferta sod.specialOfferID
    numero_pedido := soh.salesOrderID.getD 0
    numero_linha := sod.salesOrderDetailID.getD 0
    metricas := calcularMetricas sod.unitPrice sod.orderQty sod.unitPriceDiscount
      (dp.map (fun r => r.custo_unitario)) }

/-- The inner join of lines 499-501 with SQL null semantics: a NULL
`SalesOrderID` on either side matches nothing. -/
def juntarPedidos (sods : List PedidoDetalhe) (sohs : List PedidoHeader) :
    List (PedidoDetalhe × PedidoHeader) :=
  sods.flatMap (fun sod =>
    (sohs.filter (fun soh =>
      match sod.salesOrderID, soh.salesOrderID with
      | some a, some b => a == b
      | _, _ => false)).map (fun soh => (sod, soh)))

/-- The full fact SELECT: inner join, WHERE both composite key parts are
non-null (lines 512-513), then the SELECT list per surviving pair. -/
def linhasFatoCalculadas (sods : List PedidoDetalhe) (sohs : List PedidoHeader)
    (dimCliente : List DimSimples) (dimProduto : List DimProduto)
    (dimRegiao dimVendedor dimOferta : List DimSimples) : List FatoVendas :=
  ((juntarPedidos sods sohs).filter
    (fun par => par.2.salesOrderID.isSome && par.1.salesOrderDetailID.isSome)).map
    (fun par => construirFato par.1 par.2 dimCliente dimProduto dimRegiao dimVendedor dimOferta)

/-- Existence test for the composite key (numero_pedido, numero_linha). -/
def chaveFatoExiste (t : List FatoVendas) (pedido linha : Int) : Bool :=
  t.any (fun r => r.numero_pedido == pedido && r.numero_linha == linha)

/-- `ON CONFLICT (numero_pedido, numero_linha) DO NOTHING` (line 514):
keep the table unchanged when the composite key already exists,
otherwise append the new row. -/
def inserirFato (t : List FatoVendas) (r : FatoVendas) : List FatoVendas :=
  if chaveFatoExiste t r.numero_pedido r.numero_linha then t else t ++ [r]

/-- `carregar_fato_vendas` (lines 433-519) over an explicit fact-table
state: compute the SELECT rows and insert them one by one under the
conflict rule. -/
def carregar_fato_vendas (sods : List PedidoDetalhe) (sohs : List PedidoHeader)
    (dimCliente : List DimSimples) (dimProduto : List DimProduto)
    (dimRegiao dimVendedor dimOferta : List DimSimples)
    (fato : List FatoVendas) : List FatoVendas :=
  (linhasFatoCalculadas sods sohs dimCliente dimProduto dimRegiao dimVendedor dimOferta).foldl
    inserirFato fato

section FatoLemas

lemma chaveFatoExiste_inserirFato (t : List FatoVendas) (r : FatoVendas)
    (pedido linha : Int) (h : chaveFatoExiste t pedido linha = true) :
    chaveFatoExiste (inserirFato t r) pedido linha = true := by
  unfold inserirFato
  by_cases hc : chaveFatoExiste t r.numero_pedido r.numero_linha = true
  · simpa [hc] using h
  · simp only [hc]
    simp only [Bool.false_eq_true, if_false, chaveFatoExiste, List.any_append] at h ⊢
    simp [h]

lemma chaveFatoExiste_propria (t : List FatoVendas) (r : FatoVendas) :
    chaveFatoExiste (inserirFato t r) r.numero_pedido r.numero_linha = true := by
  unfold inserirFato
  by_cases hc : chaveFatoExiste t r.numero_pedido r.numero_linha = true
  · rw [if_pos hc]
    exact hc
  · rw [if_neg hc]
    unfold chaveFatoExiste
    rw [List.any_append]
    simp

lemma chaveFatoExiste_foldl (linhas : List FatoVendas) :
    ∀ (t : List FatoVendas) (pedido linha : Int),
      chaveFatoExiste t pedido linha = true →
      chaveFatoExiste (linhas.foldl inserirFato t) pedido linha = true := by
  induction linhas with
  | nil => intro t pedido linha h; simpa using h
  | cons r rest ih =>
    intro t pedido linha h
    simp only [List.foldl_cons]
    exact ih _ _ _ (chaveFatoExiste_inserirFato t r pedido linha h)

lemma chaveFatoExiste_todas (linhas : List FatoVendas) :
    ∀ (t : List FatoVendas), ∀ r ∈ linhas,
      chaveFatoExiste (linhas.foldl inserirFato t) r.numero_pedido r.numero_linha = true := by
  induction linhas with
  | nil => intro t r hr; simp at hr
  | cons q rest ih =>
    intro t r hr
    simp only [List.foldl_cons]
    rcases List.mem_cons.mp hr with rfl | hmem
    · exact chaveFatoExiste_foldl rest _ _ _ (chaveFatoExiste_propria t r)
    · exact ih _ r hmem

lemma foldl_inserirFato_sem_efeito (linhas : List FatoVendas) :
    ∀ (t : List FatoVendas),
      (∀ r ∈ linhas, chaveFatoExiste t r.numero_pedido r.numero_linha = true) →
      linhas.foldl inserirFato t = t := by
  induction linhas with
  | nil => intro t _; rfl
  | cons q rest ih =>
    intro t h
    have hq : inserirFato t q = t := by
      unfold inserirFato
      simp [h q (List.mem_cons_self q rest)]
    simp only [List.foldl_cons, hq]
    exact ih t (fun r hr => h r (List.mem_cons_of_mem q hr))

end FatoLemas

/-- C3: facts are write-once — inserting a row whose composite key
already exists leaves the fact table unchanged, and re-running the fact
load on the same staged input leaves the fact table (hence its row
count) unchanged. -/
theorem C3_fato_escrita_unica :
    (∀ (t : List FatoVendas) (r : FatoVendas),
      chaveFatoExiste t r.numero_pedido r.numero_linha = true → inserirFato t r = t) ∧
    (∀ (sods : List PedidoDetalhe) (sohs : List PedidoHeader)
      (dc : List DimSimples) (dp : List DimProduto) (dr dv dof : List DimSimples)
      (t : List FatoVendas),
      carregar_fato_vendas sods sohs dc dp dr dv dof
          (carregar_fato_vendas sods sohs dc dp dr dv dof t) =
        carregar_fato_vendas sods sohs dc dp dr dv dof t) ∧
    (∀ (sods : List PedidoDetalhe) (sohs : List PedidoHeader)
      (dc : List DimSimples) (dp : List DimProduto) (dr dv dof : List DimSimples)
      (t : List FatoVendas),
      (carregar_fato_vendas sods sohs dc dp dr dv dof
          (carregar_fato_vendas sods sohs dc dp dr dv dof t)).length =
        (carregar_fato_vendas sods sohs dc dp dr dv dof t).length) := by
  have h1 : ∀ (t : List FatoVendas) (r : FatoVendas),
      chaveFatoExiste t r.numero_pedido r.numero_linha = true → inserirFato t r = t := by
    intro t r h
    unfold inserirFato
    rw [if_pos h]
  have h2 : ∀ (sods : List PedidoDetalhe) (sohs : List PedidoHeader)
      (dc : List DimSimples) (dp : List DimProduto) (dr dv dof : List DimSimples)
      (t : List FatoVendas),
      carregar_fato_vendas sods sohs dc dp dr dv dof
          (carregar_fato_vendas sods sohs dc dp dr dv dof t) =
        carregar_fato_vendas sods sohs dc dp dr dv dof t := by
    intro sods sohs dc dp dr dv dof t
    unfold carregar_fato_vendas
    exact foldl_inserirFato_sem_efeito _ _
      (fun r hr => chaveFatoExiste_todas _ t r hr)
  exact ⟨h1, h2, fun sods sohs dc dp dr dv dof t => by rw [h2]⟩

/-- C3 witness: an insert with an already-present composite key is a
no-op on a concrete one-row table. -/
theorem C3_fato_escrita_unica_testemunha :
    inserirFato [construirFato
        ⟨some 1, some 1, 1, 10, Option.none, Option.none, Option.none⟩
        ⟨some 1, ⟨2011, 5, 31⟩, Option.none, Option.none, Option.none⟩ [] [] [] [] []]
      (construirFato
        ⟨some 1, some 1, 2, 20, Option.none, Option.none, Option.none⟩
        ⟨some 1, ⟨2011, 6, 1⟩, Option.none, Option.none, Option.none⟩ [] [] [] [] []) =
      [construirFato
        ⟨some 1, some 1, 1, 10, Option.none, Option.none, Option.none⟩
        ⟨some 1, ⟨2011, 5, 31⟩, Option.none, Option.none, Option.none⟩ [] [] [] [] []] :=
  C3_fato_escrita_unica.1 _ _ (by decide)

/-- C10: a staged order-detail row whose `SalesOrderID` or
`SalesOrderDetailID` is null contributes no fact row — the load on the
remaining rows is identical — and raises no error. -/
theorem C10_fato_exclui_chave_nula (sod : PedidoDetalhe) (sods : List PedidoDetalhe)
    (sohs : List PedidoHeader) (dimCliente : List DimSimples) (dimProduto : List DimProduto)
    (dimRegiao dimVendedor dimOferta : List DimSimples)
    (h : sod.salesOrderID = Option.none ∨ sod.salesOrderDetailID = Option.none) :
    linhasFatoCalculadas (sod :: sods) sohs dimCliente dimProduto dimRegiao dimVendedor
        dimOferta =
      linhasFatoCalculadas sods sohs dimCliente dimProduto dimRegiao dimVendedor dimOferta := by
  unfold linhasFatoCalculadas juntarPedidos
  rw [List.flatMap_cons, List.filter_append, List.map_append]
  rcases h with h | h
  · have hvazio : (sohs.filter (fun soh =>
        match sod.salesOrderID, soh.salesOrderID with
        | some a, some b => a == b
        | _, _ => false)) = [] := by
      rw [List.filter_eq_nil_iff]
      intro soh _
      rw [h]
      cases soh.salesOrderID <;> simp
    rw [hvazio]
    simp
  · have hvazio : ((sohs.filter (fun soh =>
        match sod.salesOrderID, soh.salesOrderID with
        | some a, some b => a == b
        | _, _ => false)).map (fun soh => (sod, soh))).filter
          (fun par => par.2.salesOrderID.isSome && par.1.salesOrderDetailID.isSome) = [] := by
      rw [List.filter_eq_nil_iff]
      intro par hpar
      rcases List.mem_map.mp hpar with ⟨soh, _, rfl⟩
      simp [h]
    rw [hvazio]
    simp

/-- C10 witness: a detail row with a null line id is silently dropped
from a concrete load. -/
theorem C10_fato_exclui_chave_nula_testemunha :
    linhasFatoCalculadas
        [⟨some 1, Option.none, 1, 10, Option.none, Option.none, Option.none⟩]
        [⟨some 1, ⟨2011, 5, 31⟩, Option.none, Option.none, Option.none⟩] [] [] [] [] [] =
      linhasFatoCalculadas []
        [⟨some 1, ⟨2011, 5, 31⟩, Option.none, Option.none, Option.none⟩] [] [] [] [] [] :=
  C10_fato_exclui_chave_nula _ [] _ [] [] [] [] [] (Or.inr rfl)

/-- One staged `Sales.SalesTerritory` row as read by the region load. -/
structure TerritorioStage where
  territoryID : Option Int
  nome : String
  countryRegionCode : String
  grupo : String
deriving DecidableEq

/-- SQL `LIKE` with a wildcard on both sides: substring containment. -/
def likeContem (padrao texto : String) : Bool :=
  decide (padrao.toList <:+: texto.toList)

/-- The continent CASE of lines 344-349, keyed on the territory group
text. -/
def continenteDe (grupo : String) : String :=
  if likeContem "America" grupo then "Américas"
  else if likeContem "Europe" grupo then "Europa"
  else if likeContem "Pacific" grupo then "Ásia-Pacífico"
  else "Outros"

/-- One row of `dw.dim_regiao`. -/
structure DimRegiao where
  nk_regiao : Int
  nome_territorio : String
  codigo_pais : String
  nome_pais : String
  continente : String
  grupo_regional : String
deriving DecidableEq

/-- The SELECT list of the region insert (lines 339-350): `nome_pais`
repeats the country code and the continent is derived from the group
text at insert time. -/
def novaRegiao (t : TerritorioStage) : DimRegiao :=
  { nk_regiao := t.territoryID.getD 0
    nome_territorio := t.nome
    codigo_pais := t.countryRegionCode
    nome_pais := t.countryRegionCode
    continente := continenteDe t.grupo
    grupo_regional := t.grupo }

/-- `ON CONFLICT (nk_regiao) DO UPDATE` (lines 353-355): only
`nome_territorio` and `grupo_regional` appear in the update clause. -/
def atualizarRegiao (r : DimRegiao) (t : TerritorioStage) : DimRegiao :=
  { r with nome_territorio := t.nome, grupo_regional := t.grupo }

/-- Natural-key existence test in the region dimension. -/
def chaveRegiaoExiste (tabela : List DimRegiao) (nk : Int) : Bool :=
  tabela.any (fun r => r.nk_regiao == nk)

/-- Upsert of one staged territory into `dw.dim_regiao`. -/
def upsertRegiao (tabela : List DimRegiao) (t : TerritorioStage) : List DimRegiao :=
  if chaveRegiaoExiste tabela (t.territoryID.getD 0) then
    tabela.map (fun r =>
      if r.nk_regiao == t.territoryID.getD 0 then atualizarRegiao r t else r)
  else tabela ++ [novaRegiao t]

/-- `carregar_dimensao_regiao` (lines 328-359): rows with a null
natural key are excluded, the rest are upserted. -/
def carregar_dimensao_regiao (tabela : List DimRegiao)
    (staged : List TerritorioStage) : List DimRegiao :=
  (staged.filter (fun t => t.territoryID.isSome)).foldl upsertRegiao tabela

/-- C9: on a natural-key conflict the region upsert overwrites only the
territory name and the regional group; country code, country name and
continent keep their first-insert values, and since the continent is
derived from the group only at insert time the two columns can become
mutually inconsistent. -/
theorem C9_regiao_atributos_congelados :
    (∀ (r : DimRegiao) (t : TerritorioStage),
      (atualizarRegiao r t).continente = r.continente ∧
      (atualizarRegiao r t).codigo_pais = r.codigo_pais ∧
      (atualizarRegiao r t).nome_pais = r.nome_pais ∧
      (atualizarRegiao r t).nome_territorio = t.nome ∧
      (atualizarRegiao r t).grupo_regional = t.grupo) ∧
    (∀ (tabela : List DimRegiao) (t : TerritorioStage),
      chaveRegiaoExiste tabela (t.territoryID.getD 0) = true →
      upsertRegiao tabela t =
        tabela.map (fun r =>
          if r.nk_regiao == t.territoryID.getD 0 then atualizarRegiao r t else r)) ∧
    (∃ (r : DimRegiao) (t : TerritorioStage),
      (atualizarRegiao r t).continente ≠ continenteDe (atualizarRegiao r t).grupo_regional) := by
  refine ⟨fun r t => ⟨rfl, rfl, rfl, rfl, rfl⟩,
    fun tabela t h => by rw [upsertRegiao, if_pos h], ?_⟩
  refine ⟨novaRegiao ⟨some 1, "NA", "US", "North America"⟩,
    ⟨some 1, "NA", "US", "Europe"⟩, ?_⟩
  decide

/-- C9 witness: upserting a changed group over an existing key keeps the
continent computed from the original group. -/
theorem C9_regiao_atributos_congelados_testemunha :
    upsertRegiao [novaRegiao ⟨some 1, "NA", "US", "North America"⟩]
        ⟨some 1, "NA2", "US", "Europe"⟩ =
      [novaRegiao ⟨some 1, "NA", "US", "North America"⟩].map (fun r =>
        if r.nk_regiao == ((⟨some 1, "NA2", "US", "Europe"⟩ : TerritorioStage).territoryID.getD 0)
        then atualizarRegiao r ⟨some 1, "NA2", "US", "Europe"⟩ else r) ∧
    (atualizarRegiao (novaRegiao ⟨some 1, "NA", "US", "North America"⟩)
        ⟨some 1, "NA2", "US", "Europe"⟩).continente = "Américas" :=
  ⟨C9_regiao_atributos_congelados.2.1 [novaRegiao ⟨some 1, "NA", "US", "North America"⟩]
      ⟨some 1, "NA2", "US", "Europe"⟩ (by decide),
    by decide⟩

/-- The task nodes of the Airflow DAG, one per task id declared in
lines 551-616. -/
inductive Tarefa where
  | inicio_pipeline
  | inicializar_dim_tempo
  | extrair_para_staging
  | checkpoint_staging_completo
  | carregar_dim_cliente
  | carregar_dim_produto
  | carregar_dim_regiao
  | carregar_dim_vendedor
  | carregar_dim_oferta
  | checkpoint_dimensoes_completas
  | carregar_fato_vendas
  | fim_pipeline
deriving DecidableEq

/-- All twelve task nodes. -/
def todasTarefas : List Tarefa :=
  [ .inicio_pipeline, .inicializar_dim_tempo, .extrair_para_staging,
    .checkpoint_staging_completo, .carregar_dim_cliente, .carregar_dim_produto,
    .carregar_dim_regiao, .carregar_dim_vendedor, .carregar_dim_oferta,
    .checkpoint_dimensoes_completas, .carregar_fato_vendas, .fim_pipeline ]

/-- The dependency edges declared by the `>>` wiring of lines 619-629:
a linear prefix, a fan-out over the five dimension loads between the two
checkpoints, and a linear suffix.  There is no edge between any two
dimension loads. -/
def dependencias : List (Tarefa × Tarefa) :=
  [ (.inicio_pipeline, .inicializar_dim_tempo),
    (.inicializar_dim_tempo, .extrair_para_staging),
    (.extrair_para_staging, .checkpoint_staging_completo),
    (.checkpoint_staging_completo, .carregar_dim_cliente),
    (.checkpoint_staging_completo, .carregar_dim_produto),
    (.checkpoint_staging_completo, .carregar_dim_regiao),
    (.checkpoint_staging_completo, .carregar_dim_vendedor),
    (.checkpoint_staging_completo, .carregar_dim_oferta),
    (.carregar_dim_cliente, .checkpoint_dimensoes_completas),
    (.carregar_dim_produto, .checkpoint_dimensoes_completas),
    (.carregar_dim_regiao, .checkpoint_dimensoes_completas),
    (.carregar_dim_vendedor, .checkpoint_dimensoes_completas),
    (.carregar_dim_oferta, .checkpoint_dimensoes_completas),
    (.checkpoint_dimensoes_completas, .carregar_fato_vendas),
    (.carregar_fato_vendas, .fim_pipeline) ]

/-- A schedule the scheduler may execute: a duplicate-free linear order
of all tasks that respects every declared dependency edge. -/
def ordemValida (s : List Tarefa) : Bool :=
  todasTarefas.all (fun t => s.contains t) &&
    (decide s.Nodup &&
      dependencias.all (fun e => decide (s.indexOf e.1 < s.indexOf e.2)))

/-- C4 as stated: in every run admitted by the DAG the region load
completes before the salesperson load begins. -/
def afirmacaoC4 : Prop :=
  ∀ s : List Tarefa, ordemValida s = true →
    s.indexOf Tarefa.carregar_dim_regiao < s.indexOf Tarefa.carregar_dim_vendedor

/-- A schedule that runs region before salesperson. -/
def agendaRegiaoPrimeiro : List Tarefa :=
  [ .inicio_pipeline, .inicializar_dim_tempo, .extrair_para_staging,
    .checkpoint_staging_completo, .carregar_dim_regiao, .carregar_dim_cliente,
    .carregar_dim_produto, .carregar_dim_vendedor, .carregar_dim_oferta,
    .checkpoint_dimensoes_completas, .carregar_fato_vendas, .fim_pipeline ]

/-- A schedule that runs salesperson before region. -/
def agendaVendedorPrimeiro : List Tarefa :=
  [ .inicio_pipeline, .inicializar_dim_tempo, .extrair_para_staging,
    .checkpoint_staging_completo, .carregar_dim_cliente, .carregar_dim_produto,
    .carregar_dim_vendedor, .carregar_dim_oferta, .carregar_dim_regiao,
    .checkpoint_dimensoes_completas, .carregar_fato_vendas, .fim_pipeline ]

/-- C4 counterexample: the DAG admits a valid schedule in which the
salesperson load runs before the region load, so the claimed ordering
is not enforced. -/
theorem C4_contraexemplo_ordem : ¬ afirmacaoC4 := by
  intro h
  exact absurd (h agendaVendedorPrimeiro (by decide)) (by decide)

/-- C4 amended: both the region and the salesperson loads are
constrained only to run after the staging checkpoint and before the
dimensions checkpoint; the DAG admits schedules with either of the two
loads first, so no order between them is enforced. -/
theorem C4_dimensoes_em_paralelo :
    (∀ s : List Tarefa, ordemValida s = true →
      s.indexOf Tarefa.checkpoint_staging_completo < s.indexOf Tarefa.carregar_dim_regiao ∧
      s.indexOf Tarefa.carregar_dim_regiao < s.indexOf Tarefa.checkpoint_dimensoes_completas ∧
      s.indexOf Tarefa.checkpoint_staging_completo < s.indexOf Tarefa.carregar_dim_vendedor ∧
      s.indexOf Tarefa.carregar_dim_vendedor < s.indexOf Tarefa.checkpoint_dimensoes_completas) ∧
    (∃ s : List Tarefa, ordemValida s = true ∧
      s.indexOf Tarefa.carregar_dim_regiao < s.indexOf Tarefa.carregar_dim_vendedor) ∧
    (∃ s : List Tarefa, ordemValida s = true ∧
      s.indexOf Tarefa.carregar_dim_vendedor < s.indexOf Tarefa.carregar_dim_regiao) := by
  refine ⟨?_, ⟨agendaRegiaoPrimeiro, by decide, by decide⟩,
    ⟨agendaVendedorPrimeiro, by decide, by decide⟩⟩
  intro s h
  unfold ordemValida at h
  rw [Bool.and_eq_true, Bool.and_eq_true] at h
  have he := List.all_eq_true.mp h.2.2
  have h1 := he (Tarefa.checkpoint_staging_completo, Tarefa.carregar_dim_regiao) (by decide)
  have h2 := he (Tarefa.carregar_dim_regiao, Tarefa.checkpoint_dimensoes_completas) (by decide)
  have h3 := he (Tarefa.checkpoint_staging_completo, Tarefa.carregar_dim_vendedor) (by decide)
  have h4 := he (Tarefa.carregar_dim_vendedor, Tarefa.checkpoint_dimensoes_completas) (by decide)
  exact ⟨of_decide_eq_true h1, of_decide_eq_true h2, of_decide_eq_true h3, of_decide_eq_true h4⟩

/-- C4 amended-claim witness: the betweenness constraints instantiated
at the concrete region-first schedule. -/
theorem C4_dimensoes_em_paralelo_testemunha :
    agendaRegiaoPrimeiro.indexOf Tarefa.checkpoint_staging_completo <
        agendaRegiaoPrimeiro.indexOf Tarefa.carregar_dim_regiao ∧
      agendaRegiaoPrimeiro.indexOf Tarefa.carregar_dim_regiao <
        agendaRegiaoPrimeiro.indexOf Tarefa.checkpoint_dimensoes_completas :=
  ⟨(C4_dimensoes_em_paralelo.1 agendaRegiaoPrimeiro (by decide)).1,
    (C4_dimensoes_em_paralelo.1 agendaRegiaoPrimeiro (by decide)).2.1⟩

end DWPipeline
